import Mathlib

/-
Verification of the MPC core (src/MPC.cpp): problem formulation (FG_eval)
and the receding-horizon solve loop (MPC::Solve), shallowly embedded.
Machine-integer (size_t) arithmetic is modelled on Nat with explicit
reduction modulo 2^64 where the source can wrap; doubles are modelled as
real numbers; the external Ipopt solver is modelled as an abstract
function from the assembled solver input to a (status, variable-vector,
objective) result, exactly the black-box contract the source uses.
-/

namespace MPC

/-- Unsigned 64-bit (size_t) subtraction a - b, which wraps modulo 2^64.
Faithful for all a, b below 2^64. -/
def sizeSub (a b : ℕ) : ℕ := (2 ^ 64 + a - b) % 2 ^ 64

/-- Horizon length, src/MPC.cpp line 16: size_t N = 10. -/
def N : ℕ := 10

/-- Timestep, src/MPC.cpp line 18: double dt = 0.1. -/
noncomputable def dt : ℝ := 0.1

/-- Front-axle-to-CoG distance, src/MPC.cpp line 27: const double Lf = 2.67. -/
noncomputable def Lf : ℝ := 2.67

/-- Reference cross-track error, line 30. -/
noncomputable def ref_cte : ℝ := 0

/-- Reference heading error, line 31. -/
noncomputable def ref_epsi : ℝ := 0

/-- Reference speed, line 32. -/
noncomputable def ref_v : ℝ := 130

/-- Block offsets in the flat decision-variable vector, lines 34-41.
All additions stay far below 2^64 for N = 10, so plain Nat addition is
faithful; the one subtraction (N - 1) is size_t subtraction. -/
def x_start : ℕ := 0

/-- Offset of the y block, line 35. -/
def y_start : ℕ := x_start + N

/-- Offset of the psi block, line 36. -/
def psi_start : ℕ := y_start + N

/-- Offset of the v block, line 37. -/
def v_start : ℕ := psi_start + N

/-- Offset of the cte block, line 38. -/
def cte_start : ℕ := v_start + N

/-- Offset of the epsi block, line 39. -/
def epsi_start : ℕ := cte_start + N

/-- Offset of the delta (steering) block, line 40. -/
def delta_start : ℕ := epsi_start + N

/-- Offset of the a (acceleration) block, line 41: delta_start + N - 1 in size_t. -/
def a_start : ℕ := delta_start + sizeSub N 1

/-- Number of decision variables, line 178: n_vars = N * 6 + (N - 1) * 2 in size_t. -/
def n_vars : ℕ := N * 6 + sizeSub N 1 * 2

/-- Number of constraints, line 181: n_constraints = N * 6. -/
def n_constraints : ℕ := N * 6

/-- Cost weight on cross-track error, line 61: cte_w = 1500. -/
noncomputable def cte_w : ℝ := 1500

/-- Cost weight on heading error, line 62: epsi_w = 2000. -/
noncomputable def epsi_w : ℝ := 2000

/-- Cost weight on speed error, line 63: v_w = 1. -/
noncomputable def v_w : ℝ := 1

/-- Cost weight on actuator magnitude, line 64: actuator_w = 10. -/
noncomputable def actuator_w : ℝ := 10

/-- Cost weight on steering change, line 65: change_steer_w = 1000. -/
noncomputable def change_steer_w : ℝ := 1000

/-- Cost weight on acceleration change, line 66: change_accel_w = 10. -/
noncomputable def change_accel_w : ℝ := 10

/-- Loop bound of the actuation-smoothness cost loop, line 88: the size_t
expression N - 2, which wraps modulo 2^64 when N < 2. -/
def smoothIters (n : ℕ) : ℕ := sizeSub n 2

/-- The cost accumulator fg[0], lines 58-91: reset to 0, then three loops
accumulate by addition (tracking terms for t < N, actuation-magnitude terms
for t < N - 1, actuation-smoothness terms for t < N - 2, all size_t bounds). -/
noncomputable def cost (vars : ℕ → ℝ) : ℝ :=
  let fg0 : ℝ := 0
  let fg0 := (List.range N).foldl (fun acc t =>
    acc + cte_w * (vars (cte_start + t) - ref_cte) ^ 2
        + epsi_w * (vars (epsi_start + t) - ref_epsi) ^ 2
        + v_w * (vars (v_start + t) - ref_v) ^ 2) fg0
  let fg0 := (List.range (sizeSub N 1)).foldl (fun acc t =>
    acc + actuator_w * (vars (delta_start + t)) ^ 2
        + actuator_w * (vars (a_start + t)) ^ 2) fg0
  (List.range (smoothIters N)).foldl (fun acc t =>
    acc + change_steer_w * (vars (delta_start + t + 1) - vars (delta_start + t)) ^ 2
        + change_accel_w * (vars (a_start + t + 1) - vars (a_start + t)) ^ 2) fg0

/-- Polynomial evaluation at line 131:
coeffs[0] + coeffs[1]*x0 + coeffs[2]*x0*x0 + coeffs[3]*x0*x0*x0.
Eigen vector indexing out of bounds is undefined behaviour; each access is
modelled as an Option read, so a too-short coefficient vector yields none. -/
noncomputable def polyEval (coeffs : List ℝ) (x0 : ℝ) : Option ℝ := do
  let c0 ← coeffs.get? 0
  let c1 ← coeffs.get? 1
  let c2 ← coeffs.get? 2
  let c3 ← coeffs.get? 3
  pure (c0 + c1 * x0 + c2 * x0 * x0 + c3 * x0 * x0 * x0)

/-- Desired-heading computation at line 133:
atan(coeffs[1] + 2*coeffs[2]*x0 + 3*coeffs[3]*x0*x0), same Option-modelled
out-of-bounds behaviour as polyEval. -/
noncomputable def polySlopeAtan (coeffs : List ℝ) (x0 : ℝ) : Option ℝ := do
  let c1 ← coeffs.get? 1
  let c2 ← coeffs.get? 2
  let c3 ← coeffs.get? 3
  pure (Real.arctan (c1 + 2 * c2 * x0 + 3 * c3 * x0 * x0))

/-- The fg vector written by FG_eval::operator(), lines 50-153, as a
function of the flat index: fg[0] is the cost; fg[1 + block_start] are the
t = 0 identity constraints (lines 100-105); fg[1 + block_start + t] for
t in [1, N) are the dynamics residuals (lines 108-152). Indices beyond the
written range (1 + 6N entries) are none. -/
noncomputable def fgVec (coeffs : List ℝ) (vars : ℕ → ℝ) (i : ℕ) : Option ℝ :=
  if i = 0 then some (cost vars)
  else
    let j := i - 1
    if j < y_start then
      let t := j - x_start
      if t = 0 then some (vars x_start)
      else some (vars (x_start + t) -
        (vars (x_start + t - 1) + vars (v_start + t - 1) * Real.cos (vars (psi_start + t - 1)) * dt))
    else if j < psi_start then
      let t := j - y_start
      if t = 0 then some (vars y_start)
      else some (vars (y_start + t) -
        (vars (y_start + t - 1) + vars (v_start + t - 1) * Real.sin (vars (psi_start + t - 1)) * dt))
    else if j < v_start then
      let t := j - psi_start
      if t = 0 then some (vars psi_start)
      else some (vars (psi_start + t) -
        (vars (psi_start + t - 1) - vars (v_start + t - 1) * vars (delta_start + t - 1) / Lf * dt))
    else if j < cte_start then
      let t := j - v_start
      if t = 0 then some (vars v_start)
      else some (vars (v_start + t) - (vars (v_start + t - 1) + vars (a_start + t - 1) * dt))
    else if j < epsi_start then
      let t := j - cte_start
      if t = 0 then some (vars cte_start)
      else do
        let f0 ← polyEval coeffs (vars (x_start + t - 1))
        pure (vars (cte_start + t) -
          ((f0 - vars (y_start + t - 1)) + vars (v_start + t - 1) * Real.sin (vars (epsi_start + t - 1)) * dt))
    else if j < delta_start then
      let t := j - epsi_start
      if t = 0 then some (vars epsi_start)
      else do
        let psides0 ← polySlopeAtan coeffs (vars (x_start + t - 1))
        pure (vars (epsi_start + t) -
          ((vars (psi_start + t - 1) - psides0) - vars (v_start + t - 1) * vars (delta_start + t - 1) / Lf * dt))
    else none

/-- numeric_limits of float max, line 202: (2 - 2^-23) * 2^127. -/
noncomputable def floatMax : ℝ := 2 ^ 128 - 2 ^ 104

/-- Steering bound in degrees, line 208. -/
noncomputable def max_degrees : ℝ := 25

/-- Steering bound in radians, line 209: max_degrees * M_PI / 180. -/
noncomputable def max_radians : ℝ := max_degrees * Real.pi / 180

/-- Variable lower bounds, lines 199-222: non-actuator states get the most
negative float, steering gets -max_radians, acceleration gets -1. -/
noncomputable def vars_lowerbound : ℕ → ℝ := fun i =>
  if i < delta_start then -floatMax
  else if i < a_start then -max_radians
  else -1

/-- Variable upper bounds, lines 199-222, mirroring vars_lowerbound. -/
noncomputable def vars_upperbound : ℕ → ℝ := fun i =>
  if i < delta_start then floatMax
  else if i < a_start then max_radians
  else 1

/-- Constraint lower bounds, lines 228-239: all entries 0, then the six
initial-state entries are overwritten with the measured state components
(stores modelled as Function.update, innermost first as in the source). -/
noncomputable def constraints_lowerbound (state : Fin 6 → ℝ) : ℕ → ℝ :=
  Function.update (Function.update (Function.update (Function.update (Function.update
    (Function.update (fun _ => 0) x_start (state 0)) y_start (state 1)) psi_start (state 2))
    v_start (state 3)) cte_start (state 4)) epsi_start (state 5)

/-- Constraint upper bounds, lines 228-231 and 241-246, same shape. -/
noncomputable def constraints_upperbound (state : Fin 6 → ℝ) : ℕ → ℝ :=
  Function.update (Function.update (Function.update (Function.update (Function.update
    (Function.update (fun _ => 0) x_start (state 0)) y_start (state 1)) psi_start (state 2))
    v_start (state 3)) cte_start (state 4)) epsi_start (state 5)

/-- Status values of CppAD ipopt solve_result, checked at line 284. -/
inductive SolverStatus where
  | not_defined
  | success
  | maxiter_exceeded
  | stop_at_tiny_step
  | stop_at_acceptable_point
  | local_infeasibility
  | user_requested_stop
  | feasible_point_found
  | diverging_iterates
  | restoration_failure
  | error_in_step_computation
  | invalid_number_detected
  | too_few_degrees_of_freedom
  | internal_error
  | unknown
deriving DecidableEq

/-- The (status, variable vector, objective) triple the external solver
returns, line 276: CppAD ipopt solve_result. -/
structure SolveResult where
  status : SolverStatus
  x : ℕ → ℝ
  obj_value : ℝ

/-- Everything MPC::Solve hands to CppAD ipopt solve at lines 279-281:
options string, initial guess, variable bounds, constraint bounds, and the
FG_eval object (represented by its captured coefficient vector). -/
structure SolverInput where
  options : String
  vars : ℕ → ℝ
  vars_lowerbound : ℕ → ℝ
  vars_upperbound : ℕ → ℝ
  constraints_lowerbound : ℕ → ℝ
  constraints_upperbound : ℕ → ℝ
  coeffs : List ℝ

/-- Ipopt options string assembled at lines 256-268. -/
def solveOptions : String :=
  "Integer print_level  0\n" ++ "Sparse  true        forward\n" ++
  "Sparse  true        reverse\n" ++ "Numeric max_cpu_time          0.5\n"

/-- The solver input assembled inside MPC::Solve, lines 185-268: zero
initial guess, the variable and constraint bounds above, and fg_eval. -/
noncomputable def solveInput (state : Fin 6 → ℝ) (coeffs : List ℝ) : SolverInput :=
  { options := solveOptions
    vars := fun _ => 0
    vars_lowerbound := vars_lowerbound
    vars_upperbound := vars_upperbound
    constraints_lowerbound := constraints_lowerbound state
    constraints_upperbound := constraints_upperbound state
    coeffs := coeffs }

/-- MPC::Solve, lines 162-305, with the external NLP solver abstracted as
a function argument. It assembles the solver input, invokes the solver,
computes the success flag ok exactly as line 284 does (and, like the
source, never uses it afterwards), and returns the flat result vector:
delta at t = 0, a at t = 0, then (x, y) pairs for i in [0, N - 1)
taken at index i + 1 (lines 294-304). -/
noncomputable def Solve (solver : SolverInput → SolveResult) (state : Fin 6 → ℝ)
    (coeffs : List ℝ) : List ℝ :=
  let solution := solver (solveInput state coeffs)
  let ok : Bool := decide (solution.status = SolverStatus.success)
  let result : List ℝ := [solution.x delta_start, solution.x a_start]
  (List.range (sizeSub N 1)).foldl
    (fun acc i => acc ++ [solution.x (x_start + i + 1), solution.x (y_start + i + 1)]) result

end MPC

namespace MPC

lemma x_start_eq : x_start = 0 := rfl

lemma y_start_eq : y_start = 10 := rfl

lemma psi_start_eq : psi_start = 20 := rfl

lemma v_start_eq : v_start = 30 := rfl

lemma cte_start_eq : cte_start = 40 := rfl

lemma epsi_start_eq : epsi_start = 50 := rfl

lemma delta_start_eq : delta_start = 60 := rfl

lemma a_start_eq : a_start = 69 := by decide

lemma n_vars_eq : n_vars = 78 := by decide

lemma n_constraints_eq : n_constraints = 60 := rfl

/-- C7: the decision-variable vector is one flat sequence of length
N*6 + (N-1)*2 laid out as six contiguous blocks of length N in the order
x, y, psi, v, cte, epsi starting at offset 0, followed by two contiguous
blocks of length N-1 for delta and a; the constraint vector has length
N*6; the offsets are computed once from N and tile the vector exactly, so
the Formulator and Solve, which both index through these shared offset
definitions, agree on the layout. -/
theorem C7_layout :
    x_start = 0 ∧ y_start = x_start + N ∧ psi_start = y_start + N ∧ v_start = psi_start + N ∧
    cte_start = v_start + N ∧ epsi_start = cte_start + N ∧ delta_start = epsi_start + N ∧
    a_start = delta_start + (N - 1) ∧
    n_vars = N * 6 + (N - 1) * 2 ∧ n_constraints = N * 6 ∧
    a_start + (N - 1) = n_vars ∧ epsi_start + N = n_constraints := by decide

/-- C9 counterexample: at horizon length N = 1 (which is < 2) the
actuation-smoothness loop bound N - 2, computed in size_t arithmetic as
smoothIters, wraps to 2^64 - 1 instead of degenerating to zero, so the
loop would perform iterations rather than none. -/
theorem C9_loop_wraps : smoothIters 1 = 2 ^ 64 - 1 ∧ smoothIters 1 ≠ 0 := by decide

/-- C9 amended: the smoothness loop performs zero iterations at N = 2, but
for every N < 2 the unsigned loop bound N - 2 wraps modulo 2^64 to at
least 2^64 - 2, so the loop does not degenerate cleanly. -/
theorem C9_smoothness_degeneration :
    smoothIters 2 = 0 ∧ ∀ n, n < 2 → 2 ^ 64 - 2 ≤ smoothIters n := by
  refine ⟨by decide, ?_⟩
  intro n hn
  interval_cases n
  · decide
  · decide

/-- C9 witness: the amended bound instantiated at N = 1. -/
theorem C9_smoothness_degeneration_witness :
    (1 : ℕ) < 2 ∧ 2 ^ 64 - 2 ≤ smoothIters 1 :=
  ⟨by decide, C9_smoothness_degeneration.2 1 (by decide)⟩

/-- C1: the claim fails on the code. Solve computes the success flag but
discards it: the returned vector is identical whatever status the solver
reports, so the caller cannot observe the status in the returned result;
in particular an infeasible solve returns the same 20 extracted values a
successful solve would. -/
theorem C1_status_discarded :
    (∀ (st1 st2 : SolverStatus) (xs : ℕ → ℝ) (obj : ℝ) (state : Fin 6 → ℝ) (coeffs : List ℝ),
      Solve (fun _ => ⟨st1, xs, obj⟩) state coeffs = Solve (fun _ => ⟨st2, xs, obj⟩) state coeffs) ∧
    Solve (fun _ => ⟨SolverStatus.local_infeasibility, fun _ => 0, 0⟩) (fun _ => 0) [0, 0, 0, 0]
      = List.replicate 20 0 :=
  ⟨fun _ _ _ _ _ _ => rfl, rfl⟩

/-- C6: Solve returns one flat vector holding the optimal delta at t = 0,
then the optimal a at t = 0, then exactly N - 1 = 9 predicted (x[t], y[t])
pairs for t = 1 .. N - 1; the whole result has length 2 + 2*(N-1). -/
theorem C6_result_extraction (solver : SolverInput → SolveResult) (state : Fin 6 → ℝ)
    (coeffs : List ℝ) :
    Solve solver state coeffs =
      [(solver (solveInput state coeffs)).x delta_start,
       (solver (solveInput state coeffs)).x a_start,
       (solver (solveInput state coeffs)).x (x_start + 1), (solver (solveInput state coeffs)).x (y_start + 1),
       (solver (solveInput state coeffs)).x (x_start + 2), (solver (solveInput state coeffs)).x (y_start + 2),
       (solver (solveInput state coeffs)).x (x_start + 3), (solver (solveInput state coeffs)).x (y_start + 3),
       (solver (solveInput state coeffs)).x (x_start + 4), (solver (solveInput state coeffs)).x (y_start + 4),
       (solver (solveInput state coeffs)).x (x_start + 5), (solver (solveInput state coeffs)).x (y_start + 5),
       (solver (solveInput state coeffs)).x (x_start + 6), (solver (solveInput state coeffs)).x (y_start + 6),
       (solver (solveInput state coeffs)).x (x_start + 7), (solver (solveInput state coeffs)).x (y_start + 7),
       (solver (solveInput state coeffs)).x (x_start + 8), (solver (solveInput state coeffs)).x (y_start + 8),
       (solver (solveInput state coeffs)).x (x_start + 9), (solver (solveInput state coeffs)).x (y_start + 9)] ∧
    (Solve solver state coeffs).length = 2 + 2 * (N - 1) :=
  ⟨rfl, rfl⟩

/-- C8: the claim fails on the code. With a single-coefficient polynomial
the evaluator's cte and epsi rows read coeffs[1..3] out of bounds
(modelled as none) instead of any formulation-time rejection, and Solve
still runs the cycle to completion and returns the 20 extracted values. -/
theorem C8_no_coeff_guard :
    fgVec [1] (fun _ => 0) (1 + cte_start + 1) = none ∧
    fgVec [1] (fun _ => 0) (1 + epsi_start + 1) = none ∧
    Solve (fun _ => ⟨SolverStatus.success, fun _ => 0, 0⟩) (fun _ => 0) [1] = List.replicate 20 0 :=
  ⟨rfl, rfl, rfl⟩

end MPC

namespace MPC

/-- C4: every constraint bound is 0 except the six initial-state entries
at offsets x_start, y_start, psi_start, v_start, cte_start, epsi_start,
whose lower and upper bounds are both pinned to the corresponding
component of the measured state. -/
theorem C4_constraint_bounds (state : Fin 6 → ℝ) :
    (constraints_lowerbound state x_start = state 0 ∧ constraints_upperbound state x_start = state 0 ∧
     constraints_lowerbound state y_start = state 1 ∧ constraints_upperbound state y_start = state 1 ∧
     constraints_lowerbound state psi_start = state 2 ∧ constraints_upperbound state psi_start = state 2 ∧
     constraints_lowerbound state v_start = state 3 ∧ constraints_upperbound state v_start = state 3 ∧
     constraints_lowerbound state cte_start = state 4 ∧ constraints_upperbound state cte_start = state 4 ∧
     constraints_lowerbound state epsi_start = state 5 ∧ constraints_upperbound state epsi_start = state 5) ∧
    (∀ i, i < n_constraints → i ≠ x_start → i ≠ y_start → i ≠ psi_start → i ≠ v_start →
      i ≠ cte_start → i ≠ epsi_start →
      constraints_lowerbound state i = 0 ∧ constraints_upperbound state i = 0) := by
  constructor
  · simp [constraints_lowerbound, constraints_upperbound, Function.update_apply,
      x_start_eq, y_start_eq, psi_start_eq, v_start_eq, cte_start_eq, epsi_start_eq]
  · intro i hlt h1 h2 h3 h4 h5 h6
    simp [constraints_lowerbound, constraints_upperbound, Function.update_apply,
      h1, h2, h3, h4, h5, h6]

/-- C4 witness: a non-initial constraint index (5) with a concrete state
has both bounds 0, while the pinned entries carry the state components. -/
theorem C4_constraint_bounds_witness :
    (5 : ℕ) < n_constraints ∧ (5 : ℕ) ≠ x_start ∧
    constraints_lowerbound (fun j => (j : ℝ)) 5 = 0 ∧
    constraints_upperbound (fun j => (j : ℝ)) 5 = 0 := by
  refine ⟨by decide, by decide, ?_, ?_⟩
  · exact ((C4_constraint_bounds (fun j => (j : ℝ))).2 5 (by decide) (by decide) (by decide)
      (by decide) (by decide) (by decide) (by decide)).1
  · exact ((C4_constraint_bounds (fun j => (j : ℝ))).2 5 (by decide) (by decide) (by decide)
      (by decide) (by decide) (by decide) (by decide)).2

/-- C5: variable bounds are plus/minus the maximum representable float for
every state index below delta_start, plus/minus 25 degrees in radians
(25 * pi / 180) for steering indices in [delta_start, a_start), and
[-1, 1] for acceleration indices in [a_start, n_vars). -/
theorem C5_variable_bounds :
    (∀ i, i < delta_start → vars_lowerbound i = -floatMax ∧ vars_upperbound i = floatMax) ∧
    (∀ i, delta_start ≤ i → i < a_start →
      vars_lowerbound i = -(25 * Real.pi / 180) ∧ vars_upperbound i = 25 * Real.pi / 180) ∧
    (∀ i, a_start ≤ i → i < n_vars → vars_lowerbound i = -1 ∧ vars_upperbound i = 1) := by
  refine ⟨?_, ?_, ?_⟩
  · intro i h
    constructor
    · show (if i < delta_start then -floatMax else if i < a_start then -max_radians else -1) = -floatMax
      rw [if_pos h]
    · show (if i < delta_start then floatMax else if i < a_start then max_radians else 1) = floatMax
      rw [if_pos h]
  · intro i hge hlt
    have hn : ¬ i < delta_start := not_lt.mpr hge
    constructor
    · show (if i < delta_start then -floatMax else if i < a_start then -max_radians else -1)
        = -(25 * Real.pi / 180)
      rw [if_neg hn, if_pos hlt, max_radians, max_degrees]
    · show (if i < delta_start then floatMax else if i < a_start then max_radians else 1)
        = 25 * Real.pi / 180
      rw [if_neg hn, if_pos hlt, max_radians, max_degrees]
  · intro i hge hlt
    have hd : delta_start ≤ a_start := by decide
    have hn : ¬ i < delta_start := not_lt.mpr (le_trans hd hge)
    have hn2 : ¬ i < a_start := not_lt.mpr hge
    constructor
    · show (if i < delta_start then -floatMax else if i < a_start then -max_radians else -1) = -1
      rw [if_neg hn, if_neg hn2]
    · show (if i < delta_start then floatMax else if i < a_start then max_radians else 1) = 1
      rw [if_neg hn, if_neg hn2]

/-- C5 witness: the three bound regimes instantiated at indices 0, 60
(first steering index) and 69 (first acceleration index). -/
theorem C5_variable_bounds_witness :
    ((0 : ℕ) < delta_start ∧ vars_lowerbound 0 = -floatMax) ∧
    (delta_start ≤ 60 ∧ (60 : ℕ) < a_start ∧ vars_upperbound 60 = 25 * Real.pi / 180) ∧
    (a_start ≤ 69 ∧ (69 : ℕ) < n_vars ∧ vars_lowerbound 69 = -1) :=
  ⟨⟨by decide, (C5_variable_bounds.1 0 (by decide)).1⟩,
   ⟨by decide, by decide, (C5_variable_bounds.2.1 60 (by decide) (by decide)).2⟩,
   ⟨by decide, by decide, (C5_variable_bounds.2.2 69 (by decide) (by decide)).1⟩⟩

end MPC

namespace MPC

lemma polyEval_congr (c1 c2 : List ℝ) (h : ∀ k, k < 4 → c1.get? k = c2.get? k) (x0 : ℝ) :
    polyEval c1 x0 = polyEval c2 x0 := by
  have h0 := h 0 (by norm_num)
  have h1 := h 1 (by norm_num)
  have h2 := h 2 (by norm_num)
  have h3 := h 3 (by norm_num)
  simp only [polyEval, h0, h1, h2, h3]

lemma polySlopeAtan_congr (c1 c2 : List ℝ) (h : ∀ k, k < 4 → c1.get? k = c2.get? k) (x0 : ℝ) :
    polySlopeAtan c1 x0 = polySlopeAtan c2 x0 := by
  have h1 := h 1 (by norm_num)
  have h2 := h 2 (by norm_num)
  have h3 := h 3 (by norm_num)
  simp only [polySlopeAtan, h1, h2, h3]

/-- C10: the evaluator depends only on the first four polynomial
coefficients: for any two coefficient vectors of length at least 4 that
agree on entries 0 through 3, every entry of the fg vector (the cost and
every constraint value) is identical, so coefficients beyond the cubic
term are silently ignored, never rejected. -/
theorem C10_coeff_independence (c1 c2 : List ℝ) (vars : ℕ → ℝ)
    (hl1 : 4 ≤ c1.length) (hl2 : 4 ≤ c2.length)
    (h : ∀ k, k < 4 → c1.get? k = c2.get? k) (i : ℕ) :
    fgVec c1 vars i = fgVec c2 vars i := by
  simp only [fgVec, polyEval_congr c1 c2 h, polySlopeAtan_congr c1 c2 h]

/-- C10 witness: two 5-coefficient vectors differing only in the quartic
entry give the same cte-dynamics constraint value. -/
theorem C10_coeff_independence_witness :
    4 ≤ ([1, 2, 3, 4, 5] : List ℝ).length ∧
    fgVec [1, 2, 3, 4, 5] (fun _ => 0) (1 + cte_start + 1)
      = fgVec [1, 2, 3, 4, 9] (fun _ => 0) (1 + cte_start + 1) := by
  refine ⟨by decide, ?_⟩
  exact C10_coeff_independence [1, 2, 3, 4, 5] [1, 2, 3, 4, 9] (fun _ => 0)
    (by decide) (by decide)
    (fun k hk => by interval_cases k <;> rfl) (1 + cte_start + 1)

end MPC

namespace MPC

/-- C2: for t = 0 the six constraint entries are identities equal to the
corresponding decision variables, and for every t in [1, N) the six
entries are next_state_var minus the discretized kinematic bicycle model
evaluated at timestep t-1, including the negative sign convention in the
psi row (psi[t-1] - v[t-1]/Lf * delta[t-1] * dt) and the epsi row
((psi[t-1] - psides0) - v[t-1]*delta[t-1]/Lf*dt), with
f0 = poly(x[t-1]) the cubic in the first four coefficients and
psides0 = atan of its derivative at x[t-1]. -/
theorem C2_dynamics_constraints (c0 c1 c2 c3 : ℝ) (rest : List ℝ) (vars : ℕ → ℝ) :
    (fgVec (c0 :: c1 :: c2 :: c3 :: rest) vars (1 + x_start) = some (vars x_start) ∧
     fgVec (c0 :: c1 :: c2 :: c3 :: rest) vars (1 + y_start) = some (vars y_start) ∧
     fgVec (c0 :: c1 :: c2 :: c3 :: rest) vars (1 + psi_start) = some (vars psi_start) ∧
     fgVec (c0 :: c1 :: c2 :: c3 :: rest) vars (1 + v_start) = some (vars v_start) ∧
     fgVec (c0 :: c1 :: c2 :: c3 :: rest) vars (1 + cte_start) = some (vars cte_start) ∧
     fgVec (c0 :: c1 :: c2 :: c3 :: rest) vars (1 + epsi_start) = some (vars epsi_start)) ∧
    (∀ t, 1 ≤ t → t < N →
      fgVec (c0 :: c1 :: c2 :: c3 :: rest) vars (1 + x_start + t)
        = some (vars (x_start + t) - (vars (x_start + (t - 1)) +
            vars (v_start + (t - 1)) * Real.cos (vars (psi_start + (t - 1))) * dt)) ∧
      fgVec (c0 :: c1 :: c2 :: c3 :: rest) vars (1 + y_start + t)
        = some (vars (y_start + t) - (vars (y_start + (t - 1)) +
            vars (v_start + (t - 1)) * Real.sin (vars (psi_start + (t - 1))) * dt)) ∧
      fgVec (c0 :: c1 :: c2 :: c3 :: rest) vars (1 + psi_start + t)
        = some (vars (psi_start + t) - (vars (psi_start + (t - 1)) -
            vars (v_start + (t - 1)) / Lf * vars (delta_start + (t - 1)) * dt)) ∧
      fgVec (c0 :: c1 :: c2 :: c3 :: rest) vars (1 + v_start + t)
        = some (vars (v_start + t) - (vars (v_start + (t - 1)) + vars (a_start + (t - 1)) * dt)) ∧
      fgVec (c0 :: c1 :: c2 :: c3 :: rest) vars (1 + cte_start + t)
        = some (vars (cte_start + t) -
            ((c0 + c1 * vars (x_start + (t - 1)) + c2 * vars (x_start + (t - 1)) * vars (x_start + (t - 1))
                + c3 * vars (x_start + (t - 1)) * vars (x_start + (t - 1)) * vars (x_start + (t - 1))
              - vars (y_start + (t - 1))) +
             vars (v_start + (t - 1)) * Real.sin (vars (epsi_start + (t - 1))) * dt)) ∧
      fgVec (c0 :: c1 :: c2 :: c3 :: rest) vars (1 + epsi_start + t)
        = some (vars (epsi_start + t) -
            ((vars (psi_start + (t - 1)) -
              Real.arctan (c1 + 2 * c2 * vars (x_start + (t - 1))
                + 3 * c3 * vars (x_start + (t - 1)) * vars (x_start + (t - 1)))) -
             vars (v_start + (t - 1)) * vars (delta_start + (t - 1)) / Lf * dt))) := by
  constructor
  · exact ⟨rfl, rfl, rfl, rfl, rfl, rfl⟩
  · intro t h1 h2
    have h2n : t < 10 := h2
    interval_cases t <;>
      exact ⟨rfl, rfl, congrArg some (by
        norm_num [psi_start_eq, v_start_eq, delta_start_eq]
        exact Or.inl (by ring)), rfl, rfl, rfl⟩

/-- C2 witness: the x-dynamics row instantiated at t = 1 with the zero
state and zero polynomial. -/
theorem C2_dynamics_constraints_witness :
    (1 : ℕ) ≤ 1 ∧ (1 : ℕ) < N ∧
    fgVec [0, 0, 0, 0] (fun _ => 0) (1 + x_start + 1) = some 0 := by
  refine ⟨by decide, by decide, ?_⟩
  have h := ((C2_dynamics_constraints 0 0 0 0 [] (fun _ => 0)).2 1 (by decide) (by decide)).1
  simpa using h

end MPC

namespace MPC

lemma foldl_add3 (A B C : ℕ → ℝ) : ∀ (n : ℕ) (init : ℝ),
    (List.range n).foldl (fun acc t => acc + A t + B t + C t) init
      = init + ∑ t in Finset.range n, (A t + B t + C t) := by
  intro n
  induction n with
  | zero => intro init; simp
  | succ m ih =>
    intro init
    rw [List.range_succ, List.foldl_append, ih, Finset.sum_range_succ]
    simp only [List.foldl_cons, List.foldl_nil]
    ring

lemma foldl_add2 (A B : ℕ → ℝ) : ∀ (n : ℕ) (init : ℝ),
    (List.range n).foldl (fun acc t => acc + A t + B t) init
      = init + ∑ t in Finset.range n, (A t + B t) := by
  intro n
  induction n with
  | zero => intro init; simp
  | succ m ih =>
    intro init
    rw [List.range_succ, List.foldl_append, ih, Finset.sum_range_succ]
    simp only [List.foldl_cons, List.foldl_nil]
    ring

/-- C3: the evaluator's cost starts from 0 and accumulates only by
addition; its value is the sum of the tracking terms
1500*(cte[t]-0)^2 + 2000*(epsi[t]-0)^2 + 1*(v[t]-ref_v)^2 over t in
[0, N), the actuation-magnitude terms 10*delta[t]^2 + 10*a[t]^2 over t in
[0, N-1), and the smoothness terms 1000*(delta[t+1]-delta[t])^2 +
10*(a[t+1]-a[t])^2 over t in [0, N-2). -/
theorem C3_cost_structure (vars : ℕ → ℝ) :
    cost vars =
      (∑ t in Finset.range 10,
        (1500 * (vars (cte_start + t) - 0) ^ 2 + 2000 * (vars (epsi_start + t) - 0) ^ 2
          + 1 * (vars (v_start + t) - ref_v) ^ 2))
      + (∑ t in Finset.range 9,
        (10 * (vars (delta_start + t)) ^ 2 + 10 * (vars (a_start + t)) ^ 2))
      + (∑ t in Finset.range 8,
        (1000 * (vars (delta_start + t + 1) - vars (delta_start + t)) ^ 2
          + 10 * (vars (a_start + t + 1) - vars (a_start + t)) ^ 2)) := by
  have hb1 : sizeSub 10 1 = 9 := by decide
  have hb2 : smoothIters 10 = 8 := by decide
  have hN : N = 10 := rfl
  simp only [cost, hN, hb1, hb2]
  simp only [foldl_add3, foldl_add2]
  simp only [cte_w, epsi_w, v_w, actuator_w, change_steer_w, change_accel_w, ref_cte, ref_epsi]
  ring

end MPC
